import Mathlib

/-!
Shallow embedding of the StressMonitor dashboard component
(src/src/pages/StressMonitor.js).

The component is a React functional component with four pieces of state
(stressScore, sensorData, history, lastIndex) and three event handlers
(loadHistory, simulatePredict, submitFeedback).  Each handler is embedded
as a pure function from the pre-invocation component state (the values
captured by the render closure) and the outcomes of the network calls it
makes, to the post-invocation component state together with the ordered
list of observable effects (network requests, alerts, console output)
the invocation produces.

React semantics modelled faithfully: a state setter such as setLastIndex
schedules an update of the component state for subsequent renders, but it
does NOT change the value of the local binding (the render closure value)
within the same handler invocation.  Reads inside the handler therefore
always see the closure value, while the returned state reflects the
scheduled updates.
-/

namespace StressMonitor

/-- A row of the backend history response, as consumed by the component:
keys Timestamp, HRV_Denormalized, Oxygen_Saturation, index (extra keys are
never read).  Fields other than index are only used by the chart and may
be absent. -/
structure Reading where
  Timestamp : Option String
  HRV_Denormalized : Option ℚ
  Oxygen_Saturation : Option ℚ
  index : ℤ
deriving DecidableEq, Repr

/-- The sensorData state: initially both fields are null. -/
structure SensorData where
  HRV : Option ℤ
  SpO2 : Option ℚ
deriving DecidableEq, Repr

/-- The four useState cells of the component. -/
structure ComponentState where
  stressScore : Option ℚ
  sensorData : SensorData
  history : List Reading
  lastIndex : Option ℤ
deriving DecidableEq, Repr

/-- The initial state: useState(null), useState(\x7bHRV: null, SpO2: null\x7d),
useState([]), useState(null). -/
def initialState : ComponentState :=
  { stressScore := none
    sensorData := { HRV := none, SpO2 := none }
    history := []
    lastIndex := none }

/-- Observable effects a handler invocation can produce, in order. -/
inductive Effect
  | consoleLog (msg : String)
  | consoleError (msg : String)
  | alert (msg : String)
  | getHistory
  | postPredict (hrv : ℤ) (spo2 : ℚ)
  | postFeedback (index : ℤ) (feedback : String)
deriving DecidableEq, Repr

/-- Outcome of the GET /history call: either the request throws, or it
succeeds and the guard `response.data && response.data.history` either
finds a (truthy) history array or not.  A present array is always truthy
in JS (even when empty), so `ok (some l)` covers exactly the case where
the history field is taken. -/
inductive HistoryResult
  | ok (history : Option (List Reading))
  | err (msg : String)
deriving DecidableEq, Repr

/-- Outcome of the POST /predict call. -/
inductive PredictResult
  | ok (stress_score : ℚ) (new_index : ℤ)
  | err (msg : String)
deriving DecidableEq, Repr

/-- Outcome of the POST /feedback call. -/
inductive FeedbackResult
  | ok (index : ℤ) (new_score : ℚ)
  | err (msg : String)
deriving DecidableEq, Repr

/-- Embeds loadHistory: GET /history; on success log the payload and, if
data and data.history are truthy, setHistory(data.history); on a thrown
error, console.error only.  The returned effect list starts with the
issued request. -/
def loadHistory (s : ComponentState) (res : HistoryResult) :
    ComponentState × List Effect :=
  match res with
  | .ok data =>
      match data with
      | some hist =>
          ({ s with history := hist },
           [Effect.getHistory, Effect.consoleLog "History loaded:"])
      | none =>
          (s, [Effect.getHistory, Effect.consoleLog "History loaded:"])
  | .err msg =>
      (s, [Effect.getHistory,
           Effect.consoleError ("Error loading history: " ++ msg)])

/-- Embeds `Math.floor(Math.random() * 51) + 40` with the random draw
r ∈ [0,1) made explicit. -/
def genHRV (r : ℚ) : ℤ := ⌊r * 51⌋ + 40

/-- Embeds `Math.random() * 8 + 92` with the random draw r ∈ [0,1) made
explicit. -/
def genSpO2 (r : ℚ) : ℚ := r * 8 + 92

/-- Embeds simulatePredict: build the synthetic sample from two random
draws, POST /predict; on success setStressScore, setSensorData,
setLastIndex(response.data.new_index) (logging the index), then await
loadHistory; on a thrown error, alert the message and change nothing. -/
def simulatePredict (s : ComponentState) (r1 r2 : ℚ)
    (res : PredictResult) (histRes : HistoryResult) :
    ComponentState × List Effect :=
  let data : SensorData := { HRV := some (genHRV r1), SpO2 := some (genSpO2 r2) }
  match res with
  | .ok score newIndex =>
      let s1 := { s with stressScore := some score
                         sensorData := data
                         lastIndex := some newIndex }
      let rest := loadHistory s1 histRes
      (rest.1,
       Effect.postPredict (genHRV r1) (genSpO2 r2) ::
       Effect.consoleLog ("New prediction saved at index: " ++ toString newIndex) ::
       rest.2)
  | .err msg =>
      (s, [Effect.postPredict (genHRV r1) (genSpO2 r2),
           Effect.alert ("Error: " ++ msg)])

/-- Embeds submitFeedback.  The local binding lastIndex is the render
closure value s.lastIndex; the fallback
`if (lastIndex === null && history.length > 0) setLastIndex(history[history.length - 1].index)`
schedules a state update (reflected in the returned state) but does not
change the closure value, so the subsequent null check and the POST body
both still read s.lastIndex.  On POST success, alert the confirmation and
await loadHistory; on a thrown error, alert and console.error. -/
def submitFeedback (s : ComponentState) (feedback : String)
    (res : FeedbackResult) (histRes : HistoryResult) :
    ComponentState × List Effect :=
  let s1 :=
    if s.lastIndex = none then
      match s.history.getLast? with
      | some last => { s with lastIndex := some last.index }
      | none => s
    else s
  match s.lastIndex with
  | none => (s1, [Effect.alert "Please simulate a reading first"])
  | some idx =>
      match res with
      | .ok ridx newScore =>
          let rest := loadHistory s1 histRes
          (rest.1,
           Effect.postFeedback idx feedback ::
           Effect.alert ("Feedback " ++ feedback ++ " recorded! Row Index: " ++
             toString ridx ++ " New Stress Score: " ++ toString newScore) ::
           rest.2)
      | .err msg =>
          (s1, [Effect.postFeedback idx feedback,
                Effect.alert ("Feedback error: " ++ msg),
                Effect.consoleError ("Feedback error: " ++ msg)])

/-- True iff the effect list contains a blocking alert. -/
def hasAlert (effs : List Effect) : Bool :=
  effs.any fun e => match e with | .alert _ => true | _ => false

/-- True iff the effect list contains a console.error report. -/
def hasConsoleError (effs : List Effect) : Bool :=
  effs.any fun e => match e with | .consoleError _ => true | _ => false

/-- True iff the effect list contains a POST to the feedback endpoint. -/
def hasFeedbackPost (effs : List Effect) : Bool :=
  effs.any fun e => match e with | .postFeedback _ _ => true | _ => false

/-- loadHistory never touches the lastIndex cell. -/
theorem loadHistory_fst_lastIndex (s : ComponentState) (r : HistoryResult) :
    (loadHistory s r).1.lastIndex = s.lastIndex := by
  cases r with
  | ok d => cases d <;> rfl
  | err m => rfl

/-- A sample history row with backend row index 5. -/
def sampleReading : Reading :=
  { Timestamp := some "2024-01-01 10:00"
    HRV_Denormalized := some 60
    Oxygen_Saturation := some 95
    index := 5 }

/-- A state with no session-remembered index and a non-empty loaded
history whose last row has index 5. -/
def sampleHistoryState : ComponentState :=
  { stressScore := none
    sensorData := { HRV := none, SpO2 := none }
    history := [sampleReading]
    lastIndex := none }

/-- Claim C1 (code_bug): with lastIndex null and a non-empty loaded
history, the claim says submitFeedback resolves the target to the last
history index and POSTs it.  The code instead calls
setLastIndex(history[history.length - 1].index) — which only takes effect
for later renders — and then re-checks the stale closure value, which is
still null, so the invocation alerts the simulate-first message and
issues no POST.  This theorem evaluates the embedded handler at the
failing input: the only effect is the precondition alert, while the
returned state shows the scheduled index update. -/
theorem C1_stale_fallback_behavior :
    submitFeedback sampleHistoryState "good"
        (FeedbackResult.ok 5 (1/2)) (HistoryResult.ok none) =
      ({ sampleHistoryState with lastIndex := some 5 },
       [Effect.alert "Please simulate a reading first"]) := by
  rfl

/-- Claim C2: after a successful simulate, the remembered lastIndex equals
the new_index field of the predict response, and a subsequent feedback
submission from that state issues, as its first effect, a POST to the
feedback endpoint carrying exactly that index. -/
theorem C2_remembered_index_equals_new_index (s : ComponentState)
    (r1 r2 score : ℚ) (newIndex : ℤ) (hres hres2 : HistoryResult)
    (fb : String) (fres : FeedbackResult) :
    (simulatePredict s r1 r2 (PredictResult.ok score newIndex) hres).1.lastIndex
        = some newIndex ∧
    ((submitFeedback
        (simulatePredict s r1 r2 (PredictResult.ok score newIndex) hres).1
        fb fres hres2).2.head? = some (Effect.postFeedback newIndex fb)) := by
  have hidx :
      (simulatePredict s r1 r2 (PredictResult.ok score newIndex) hres).1.lastIndex
        = some newIndex := by
    unfold simulatePredict
    simp [loadHistory_fst_lastIndex]
  refine ⟨hidx, ?_⟩
  unfold submitFeedback
  simp [hidx]
  cases fres <;> simp

/-- Witness for C2 at the spec example: score 0.42, new index 7,
feedback good. -/
theorem C2_remembered_index_equals_new_index_witness :
    (simulatePredict initialState 0 0
        (PredictResult.ok (21/50) 7) (HistoryResult.ok none)).1.lastIndex
      = some 7 ∧
    ((submitFeedback
        (simulatePredict initialState 0 0
          (PredictResult.ok (21/50) 7) (HistoryResult.ok none)).1
        "good" (FeedbackResult.ok 7 (1/4)) (HistoryResult.ok none)).2.head?
      = some (Effect.postFeedback 7 "good")) :=
  C2_remembered_index_equals_new_index initialState 0 0 (21/50) 7
    (HistoryResult.ok none) (HistoryResult.ok none) "good"
    (FeedbackResult.ok 7 (1/4))

/-- Claim C3: for every pair of random draws in [0,1), the synthesized
HRV lies in the closed interval [40,90] and the synthesized SpO2 lies in
the half-open interval [92,100). -/
theorem C3_simulated_reading_ranges (r1 r2 : ℚ) (h10 : 0 ≤ r1) (h11 : r1 < 1)
    (h20 : 0 ≤ r2) (h21 : r2 < 1) :
    (40 ≤ genHRV r1 ∧ genHRV r1 ≤ 90) ∧
    (92 ≤ genSpO2 r2 ∧ genSpO2 r2 < 100) := by
  have hf0 : (0:ℤ) ≤ ⌊r1 * 51⌋ := Int.floor_nonneg.mpr (by positivity)
  have hf1 : ⌊r1 * 51⌋ < 51 := Int.floor_lt.mpr (by push_cast; linarith)
  refine ⟨⟨?_, ?_⟩, ?_, ?_⟩
  · unfold genHRV; omega
  · unfold genHRV; omega
  · unfold genSpO2; linarith
  · unfold genSpO2; linarith

/-- Witness for C3 at the draws r1 = r2 = 1/2. -/
theorem C3_simulated_reading_ranges_witness :
    (40 ≤ genHRV (1/2) ∧ genHRV (1/2) ≤ 90) ∧
    (92 ≤ genSpO2 (1/2) ∧ genSpO2 (1/2) < 100) :=
  C3_simulated_reading_ranges (1/2) (1/2) (by norm_num) (by norm_num)
    (by norm_num) (by norm_num)

/-- Claim C4: a failed predict POST leaves the whole component state
unchanged, and a failed feedback POST leaves the displayed state — stress
score, sensor snapshot and history series — unchanged. -/
theorem C4_failed_post_leaves_display_unchanged (s : ComponentState)
    (r1 r2 : ℚ) (m fb : String) (hres hres2 : HistoryResult) :
    (simulatePredict s r1 r2 (PredictResult.err m) hres).1 = s ∧
    ((submitFeedback s fb (FeedbackResult.err m) hres2).1.stressScore = s.stressScore ∧
     (submitFeedback s fb (FeedbackResult.err m) hres2).1.sensorData = s.sensorData ∧
     (submitFeedback s fb (FeedbackResult.err m) hres2).1.history = s.history) := by
  refine ⟨rfl, ?_⟩
  unfold submitFeedback
  cases hli : s.lastIndex with
  | none =>
      simp [hli]
      split <;> simp
  | some idx => simp [hli]

/-- Witness for C4 at the initial state. -/
theorem C4_failed_post_leaves_display_unchanged_witness :
    (simulatePredict initialState 0 0
        (PredictResult.err "Network Error") (HistoryResult.ok none)).1
      = initialState ∧
    ((submitFeedback initialState "good"
        (FeedbackResult.err "Network Error") (HistoryResult.ok none)).1.stressScore
        = initialState.stressScore ∧
     (submitFeedback initialState "good"
        (FeedbackResult.err "Network Error") (HistoryResult.ok none)).1.sensorData
        = initialState.sensorData ∧
     (submitFeedback initialState "good"
        (FeedbackResult.err "Network Error") (HistoryResult.ok none)).1.history
        = initialState.history) :=
  C4_failed_post_leaves_display_unchanged initialState 0 0 "Network Error"
    "good" (HistoryResult.ok none) (HistoryResult.ok none)

/-- Claim C5: with lastIndex null and an empty loaded history,
submitFeedback only raises the simulate-first alert: the state is
unchanged and the effect list contains no network request. -/
theorem C5_feedback_without_index_no_request (s : ComponentState)
    (fb : String) (fres : FeedbackResult) (hres : HistoryResult)
    (h1 : s.lastIndex = none) (h2 : s.history = []) :
    submitFeedback s fb fres hres =
      (s, [Effect.alert "Please simulate a reading first"]) := by
  unfold submitFeedback
  simp [h1, h2]

/-- Witness for C5 at the initial state. -/
theorem C5_feedback_without_index_no_request_witness :
    submitFeedback initialState "good"
        (FeedbackResult.ok 0 0) (HistoryResult.ok none) =
      (initialState, [Effect.alert "Please simulate a reading first"]) :=
  C5_feedback_without_index_no_request initialState "good"
    (FeedbackResult.ok 0 0) (HistoryResult.ok none) rfl rfl

/-- Claim C6: a successful history load whose response carries a history
field replaces the displayed series with exactly that field, whatever was
displayed before, and changes nothing else. -/
theorem C6_history_load_replaces (s : ComponentState) (hist : List Reading) :
    (loadHistory s (HistoryResult.ok (some hist))).1 =
      { s with history := hist } := rfl

/-- Witness for C6: loading the sample row over the initial state. -/
theorem C6_history_load_replaces_witness :
    (loadHistory initialState (HistoryResult.ok (some [sampleReading]))).1 =
      { initialState with history := [sampleReading] } :=
  C6_history_load_replaces initialState [sampleReading]

/-- Claim C7 counterexample: a network failure of the history loader is
caught but produces no blocking user notification, refuting the claim
that every error in every handler is surfaced via a blocking
notification. -/
theorem C7_history_loader_error_no_alert :
    hasAlert (loadHistory initialState (HistoryResult.err "Network Error")).2
      = false := rfl

/-- Claim C7 amended: errors in simulatePredict and submitFeedback are
caught and surfaced via a blocking alert, while errors in the history
loader are caught but reported to the console only, with no alert. -/
theorem C7_amended_error_surfacing (s : ComponentState) (r1 r2 : ℚ)
    (m fb : String) (hres hres2 : HistoryResult) :
    hasAlert (simulatePredict s r1 r2 (PredictResult.err m) hres).2 = true ∧
    hasAlert (submitFeedback s fb (FeedbackResult.err m) hres2).2 = true ∧
    hasAlert (loadHistory s (HistoryResult.err m)).2 = false ∧
    hasConsoleError (loadHistory s (HistoryResult.err m)).2 = true := by
  refine ⟨rfl, ?_, rfl, rfl⟩
  unfold submitFeedback
  cases hli : s.lastIndex with
  | none => simp [hli, hasAlert]
  | some idx => simp [hli, hasAlert]

/-- Witness for the amended C7 at the initial state. -/
theorem C7_amended_error_surfacing_witness :
    hasAlert (simulatePredict initialState 0 0
        (PredictResult.err "Network Error") (HistoryResult.ok none)).2 = true ∧
    hasAlert (submitFeedback initialState "good"
        (FeedbackResult.err "Network Error") (HistoryResult.ok none)).2 = true ∧
    hasAlert (loadHistory initialState (HistoryResult.err "Network Error")).2
        = false ∧
    hasConsoleError (loadHistory initialState
        (HistoryResult.err "Network Error")).2 = true :=
  C7_amended_error_surfacing initialState 0 0 "Network Error" "good"
    (HistoryResult.ok none) (HistoryResult.ok none)

/-- Claim C8: a history response that succeeds but carries no truthy
history field leaves the state untouched and reports no error, neither
as an alert nor on the error console. -/
theorem C8_malformed_history_silently_ignored (s : ComponentState) :
    (loadHistory s (HistoryResult.ok none)).1 = s ∧
    hasAlert (loadHistory s (HistoryResult.ok none)).2 = false ∧
    hasConsoleError (loadHistory s (HistoryResult.ok none)).2 = false :=
  ⟨rfl, rfl, rfl⟩

/-- Witness for C8 at the sample history state. -/
theorem C8_malformed_history_silently_ignored_witness :
    (loadHistory sampleHistoryState (HistoryResult.ok none)).1
        = sampleHistoryState ∧
    hasAlert (loadHistory sampleHistoryState (HistoryResult.ok none)).2
        = false ∧
    hasConsoleError (loadHistory sampleHistoryState (HistoryResult.ok none)).2
        = false :=
  C8_malformed_history_silently_ignored sampleHistoryState

/-- Claim C9: the synthesized HRV is an integer and its possible values
over all random draws in [0,1) are exactly the integers 40 through 90:
every draw lands in that range, and every integer in the range is hit by
some draw. -/
theorem C9_hrv_values_exactly_int_range :
    (∀ r : ℚ, 0 ≤ r → r < 1 → genHRV r ∈ Finset.Icc (40:ℤ) 90) ∧
    (∀ k : ℤ, k ∈ Finset.Icc (40:ℤ) 90 →
      ∃ r : ℚ, 0 ≤ r ∧ r < 1 ∧ genHRV r = k) := by
  constructor
  · intro r h0 h1
    have hf0 : (0:ℤ) ≤ ⌊r * 51⌋ := Int.floor_nonneg.mpr (by positivity)
    have hf1 : ⌊r * 51⌋ < 51 := Int.floor_lt.mpr (by push_cast; linarith)
    simp only [Finset.mem_Icc, genHRV]
    omega
  · intro k hk
    simp only [Finset.mem_Icc] at hk
    have hk1 : (40:ℚ) ≤ (k:ℚ) := by exact_mod_cast hk.1
    have hk2 : (k:ℚ) ≤ 90 := by exact_mod_cast hk.2
    refine ⟨((k:ℚ) - 40) / 51, ?_, ?_, ?_⟩
    · apply div_nonneg
      · linarith
      · norm_num
    · rw [div_lt_one (by norm_num)]
      linarith
    · unfold genHRV
      rw [div_mul_cancel₀ _ (by norm_num : (51:ℚ) ≠ 0)]
      have hcast : ((k:ℚ) - 40) = ((k - 40 : ℤ) : ℚ) := by push_cast; ring
      rw [hcast, Int.floor_intCast]
      omega

/-- Witness for C9: the draw 1/2 lands in the range, and the endpoint 90
is attained by some draw. -/
theorem C9_hrv_values_exactly_int_range_witness :
    genHRV (1/2) ∈ Finset.Icc (40:ℤ) 90 ∧
    ∃ r : ℚ, 0 ≤ r ∧ r < 1 ∧ genHRV r = 90 :=
  ⟨C9_hrv_values_exactly_int_range.1 (1/2) (by norm_num) (by norm_num),
   C9_hrv_values_exactly_int_range.2 90 (by decide)⟩

/-- Claim C10: a failed predict POST leaves the session-remembered
feedback target untouched: lastIndex after the failed invocation equals
lastIndex before it. -/
theorem C10_failed_predict_preserves_lastIndex (s : ComponentState)
    (r1 r2 : ℚ) (m : String) (hres : HistoryResult) :
    (simulatePredict s r1 r2 (PredictResult.err m) hres).1.lastIndex
      = s.lastIndex := rfl

/-- Witness for C10 at the sample history state. -/
theorem C10_failed_predict_preserves_lastIndex_witness :
    (simulatePredict sampleHistoryState 0 0
        (PredictResult.err "Network Error") (HistoryResult.ok none)).1.lastIndex
      = sampleHistoryState.lastIndex :=
  C10_failed_predict_preserves_lastIndex sampleHistoryState 0 0
    "Network Error" (HistoryResult.ok none)

end StressMonitor
